import Mathlib

/-!
Verification development for the `ebpf_monitor` repository.

Shallow embedding of the Python sources in `src/`: each Lean definition
mirrors one function or state fragment of the code, keeping names where
possible.  The theorems at the end of the file settle the claims about the
monitor lifecycle, the output controller, the per-monitor filters and CSV
schemas, configuration validation and target management.
-/

namespace EbpfMonitor

/-! ### Interrupt and page-fault type decoding
(`src/src/monitors/interrupt.py`, `src/src/monitors/page_fault.py`)

Constants from `InterruptMonitor`: IRQ_TYPE_HARDWARE = 0x1,
IRQ_TYPE_SOFTWARE = 0x2, IRQ_TYPE_TIMER = 0x4, IRQ_TYPE_NETWORK = 0x8,
IRQ_TYPE_BLOCK = 0x10, IRQ_TYPE_MIGRATE = 0x4000, IRQ_TYPE_AFFINITY = 0x8000.
Constants from `PageFaultMonitor`: FAULT_TYPE_MINOR = 0x1, FAULT_TYPE_MAJOR
= 0x2, FAULT_TYPE_WRITE = 0x4, FAULT_TYPE_USER = 0x8, FAULT_TYPE_SHARED =
0x10, FAULT_TYPE_SWAP = 0x8000. -/

/-- The list `types` built by `InterruptEvent.irq_type_str`: one flag name per
set bit, in the source's append order. -/
def irq_flags (t : Nat) : List String :=
  (if t &&& 0x1 = 0 then [] else ["HARDWARE"]) ++
  (if t &&& 0x2 = 0 then [] else ["SOFTWARE"]) ++
  (if t &&& 0x4 = 0 then [] else ["TIMER"]) ++
  (if t &&& 0x8 = 0 then [] else ["NETWORK"]) ++
  (if t &&& 0x10 = 0 then [] else ["BLOCK"]) ++
  (if t &&& 0x4000 = 0 then [] else ["MIGRATE"]) ++
  (if t &&& 0x8000 = 0 then [] else ["AFFINITY"])

/-- `InterruptEvent.irq_type_str`: `"|".join(types) if types else "UNKNOWN"`. -/
def irq_type_str (t : Nat) : String :=
  if irq_flags t = [] then "UNKNOWN" else String.intercalate "|" (irq_flags t)

/-- The list `types` built by `PageFaultEvent.fault_type_str`, in the
source's append order (MINOR before MAJOR). -/
def fault_flags (t : Nat) : List String :=
  (if t &&& 0x1 = 0 then [] else ["MINOR"]) ++
  (if t &&& 0x2 = 0 then [] else ["MAJOR"]) ++
  (if t &&& 0x4 = 0 then [] else ["WRITE"]) ++
  (if t &&& 0x8 = 0 then [] else ["USER"]) ++
  (if t &&& 0x10 = 0 then [] else ["SHARED"]) ++
  (if t &&& 0x8000 = 0 then [] else ["SWAP"])

/-- `PageFaultEvent.fault_type_str`. -/
def fault_type_str (t : Nat) : String :=
  if fault_flags t = [] then "UNKNOWN" else String.intercalate "|" (fault_flags t)

/-- Uppercase hexadecimal rendering, as Python's `f"{x:X}"`. -/
def hex_upper (n : Nat) : String :=
  String.map Char.toUpper (String.mk (Nat.toDigits 16 n))

/-- The priority-ordered single-tag interrupt decoding used by
`InterruptMonitor.format_for_console` (HARD, then within SOFTWARE
TIMER > NETWORK > BLOCK > SOFT, then MIGRATE, else a hex fallback). -/
def irq_console_type_str (t : Nat) : String :=
  if t &&& 0x1 ≠ 0 then "HARD"
  else if t &&& 0x2 ≠ 0 then
    if t &&& 0x4 ≠ 0 then "TIMER"
    else if t &&& 0x8 ≠ 0 then "NETWORK"
    else if t &&& 0x10 ≠ 0 then "BLOCK"
    else "SOFT"
  else if t &&& 0x4000 ≠ 0 then "MIGRATE"
  else "TYPE_" ++ hex_upper t

/-- Split a character list at every `'|'` (the accumulator holds the
current chunk reversed), as Python's `s.split("|")`. -/
def split_bar_aux : List Char → List Char → List String
  | [], acc => [String.mk acc.reverse]
  | c :: cs, acc =>
      if c = '|' then String.mk acc.reverse :: split_bar_aux cs []
      else split_bar_aux cs (c :: acc)

/-- Python's `s.split("|")`. -/
def split_bar (s : String) : List String := split_bar_aux s.data []

/-- Parse an emitted interrupt `irq_type_str` back into the flag list:
`"UNKNOWN"` denotes the empty classification, otherwise split on `"|"`. -/
def irq_flags_of_str (s : String) : List String :=
  if s = "UNKNOWN" then [] else split_bar s

/-- Parse an emitted page-fault `fault_type_str` back into the flag list. -/
def fault_flags_of_str (s : String) : List String :=
  if s = "UNKNOWN" then [] else split_bar s

/-! ### Per-record filters (`_should_handle_event`) -/

/-- The option flags read by `InterruptMonitor._initialize`. -/
structure InterruptConfig where
  monitor_hardware : Bool
  monitor_software : Bool
  monitor_timer : Bool
  monitor_network : Bool
  monitor_block : Bool
  monitor_migration : Bool
deriving DecidableEq

/-- `InterruptMonitor.get_default_config` option flags. -/
def interrupt_default_config : InterruptConfig :=
  { monitor_hardware := true, monitor_software := true, monitor_timer := true,
    monitor_network := true, monitor_block := true, monitor_migration := false }

/-- `InterruptMonitor._should_handle_event`, reading only `event.irq_type`. -/
def interrupt_should_handle (c : InterruptConfig) (irq_type : Nat) : Bool :=
  if c.monitor_hardware && !(irq_type &&& 0x1 == 0) then true
  else if c.monitor_software && !(irq_type &&& 0x2 == 0) then true
  else if c.monitor_timer && !(irq_type &&& 0x4 == 0) then true
  else if c.monitor_network && !(irq_type &&& 0x8 == 0) then true
  else if c.monitor_block && !(irq_type &&& 0x10 == 0) then true
  else if c.monitor_migration && !(irq_type &&& 0x4000 == 0) then true
  else false

/-- The option flags read by `PageFaultMonitor._initialize`. -/
structure PageFaultConfig where
  monitor_major_faults : Bool
  monitor_minor_faults : Bool
  monitor_write_faults : Bool
  monitor_user_faults : Bool
  monitor_kernel_faults : Bool
deriving DecidableEq

/-- `PageFaultMonitor.get_default_config` option flags. -/
def page_fault_default_config : PageFaultConfig :=
  { monitor_major_faults := true, monitor_minor_faults := true,
    monitor_write_faults := true, monitor_user_faults := true,
    monitor_kernel_faults := false }

/-- `PageFaultMonitor._should_handle_event`, reading only `event.fault_type`
(`is_major_fault` is bit 0x2, `is_minor_fault` bit 0x1, `is_write_fault`
bit 0x4, `is_user_fault` bit 0x8). -/
def page_fault_should_handle (c : PageFaultConfig) (fault_type : Nat) : Bool :=
  if !(fault_type &&& 0x2 == 0) && !c.monitor_major_faults then false
  else if !(fault_type &&& 0x1 == 0) && !c.monitor_minor_faults then false
  else if !(fault_type &&& 0x4 == 0) && !c.monitor_write_faults then false
  else if !(fault_type &&& 0x8 == 0) && !c.monitor_user_faults then false
  else if (fault_type &&& 0x8 == 0) && !c.monitor_kernel_faults then false
  else true

/-! ### CSV headers (`get_csv_header` of each monitor that implements it) -/

/-- `ExecMonitor.get_csv_header`. -/
def exec_csv_header : List String :=
  ["timestamp", "time_str", "comm", "uid", "pid", "ppid", "ret", "argv"]

/-- `SyscallMonitor.get_csv_header`. -/
def syscall_csv_header : List String :=
  ["timestamp", "time_str", "monitor_type", "pid", "tid", "cpu", "comm",
   "syscall_nr", "syscall_name", "category", "ret_val", "error_name",
   "duration_ns", "duration_us", "duration_ms", "is_error", "is_slow_call"]

/-- `InterruptMonitor.get_csv_header`. -/
def interrupt_csv_header : List String :=
  ["timestamp", "time_str", "irq_num", "irq_type", "irq_type_str", "irq_name",
   "comm", "pid", "tid", "duration_ns", "duration_us", "cpu", "softirq_vec",
   "orig_cpu", "dest_cpu"]

/-- `PageFaultMonitor.get_csv_header`. -/
def page_fault_csv_header : List String :=
  ["timestamp", "time_str", "pid", "tid", "comm",
   "address", "address_hex", "fault_type", "fault_type_str",
   "cpu", "is_major_fault", "is_minor_fault", "is_write_fault", "is_user_fault"]

/-- `FuncMonitor.get_csv_header`. -/
def func_csv_header : List String :=
  ["timestamp", "time_str", "pid", "ppid", "uid", "comm", "func_name"]

/-- `IOMonitor.get_csv_header`. -/
def io_csv_header : List String :=
  ["timestamp", "time_str", "io_type", "type_str", "fd", "size", "duration_ns",
   "duration_us", "throughput_mbps", "pid", "tid", "cpu", "comm", "ret_val",
   "is_error"]

/-! ### Output controller (`src/src/utils/output_controller.py`)

Records pushed through the controller are events; their payload is
irrelevant to the buffering claims, so events are modelled as `Nat`. -/

/-- The fields of `OutputConfig.__init__` with their defaults
(`src/src/utils/configs.py`). -/
structure OutputConfig where
  buffer_size : Nat := 5000
  batch_size : Nat := 1000
  large_batch_threshold : Nat := 500
  flush_interval : Nat := 2
  output_thread_sleep_tenths : Nat := 1
  csv_delimiter : String := ","
  include_header : Bool := true
deriving DecidableEq

/-- Controller settings after `_setup_output_controller` ran: `_apply_config`
copies `buffer_size`, `flush_interval`, `csv_delimiter` and `include_header`
from the `OutputConfig`, while `self.batch_size = 100` is assigned the
literal 100 (the configured `batch_size` and `large_batch_threshold` are
never read by the controller). -/
structure ControllerSettings where
  buffer_size : Nat
  flush_interval : Nat
  csv_delimiter : String
  include_header : Bool
  batch_size : Nat
deriving DecidableEq

/-- `_setup_output_controller` / `_apply_config`. -/
def setup_output_controller (cfg : OutputConfig) : ControllerSettings :=
  { buffer_size := cfg.buffer_size,
    flush_interval := cfg.flush_interval,
    csv_delimiter := cfg.csv_delimiter,
    include_header := cfg.include_header,
    batch_size := 100 }

/-- `collections.deque(maxlen=m).append x`: keep the most recent `m`
elements, silently discarding from the head. -/
def deque_append (maxlen : Nat) (xs : List Nat) (x : Nat) : List Nat :=
  let ys := xs ++ [x]
  ys.drop (ys.length - maxlen)

/-- The mutable state of `OutputController` touched by `handle_event`:
`running`, the registered `monitors` (keys only), the `buffer_size` setting,
and `events_buffer` — a `defaultdict` of per-type deques, modelled as a
total function defaulting to the empty list.  The class has no drop or
overflow counter of any kind. -/
structure OCState where
  running : Bool
  monitors : List String
  buffer_size : Nat
  events_buffer : String → List Nat

/-- `OutputController.handle_event`: return immediately when not running or
when the type is unregistered; otherwise append to the type's bounded deque
(never blocking; on a full deque the oldest record is silently discarded). -/
def handle_event (st : OCState) (monitor_type : String) (event : Nat) : OCState :=
  if !st.running then st
  else if !(st.monitors.contains monitor_type) then st
  else
    { st with events_buffer := fun s =>
        if s = monitor_type then
          deque_append st.buffer_size (st.events_buffer monitor_type) event
        else st.events_buffer s }

/-- The per-monitor `stats` counters of `BaseMonitor` touched by the event
callback (`src/src/monitors/base.py`, `__get_default_stats`). -/
structure MonitorStats where
  events_processed : Nat
  events_dropped : Nat
deriving DecidableEq

/-- `BaseMonitor.__handle_event_callback`: decode, apply
`_should_handle_event` (here the predicate `should` over the decoded
payload), hand the record to `output_controller.handle_event`, run the
extended callback, and bump `events_processed`; if the extended callback
raises, the `except` branch bumps `events_dropped` instead. -/
def handle_event_callback (should : Nat → Bool) (extended_raises : Bool)
    (st : OCState) (ms : MonitorStats) (monitor_type : String) (event : Nat) :
    OCState × MonitorStats :=
  if !(should event) then (st, ms)
  else
    let st' := handle_event st monitor_type event
    if extended_raises then
      (st', { ms with events_dropped := ms.events_dropped + 1 })
    else
      (st', { ms with events_processed := ms.events_processed + 1 })

/-- `OutputController._process_buffer`: pop records off the front of the
type's buffer until `batch_size` records are taken or the buffer is empty;
returns the batch and the remaining buffer. -/
def process_buffer (batch_size : Nat) (buffer : List Nat) : List Nat × List Nat :=
  (buffer.take batch_size, buffer.drop batch_size)

/-- The flush decision of `_write_csv_batch`: `if len(events) >= 20:
self.csv_files[monitor_type].flush()` — the literal 20, not the configured
`large_batch_threshold`. -/
def write_csv_batch_flushes (events : List Nat) : Bool :=
  20 ≤ events.length

/-! ### Monitor lifecycle (`src/src/monitors/base.py`)

`BaseMonitor` holds `self.bpf` (None until a successful load), `self.running`
and `self.stop_event`.  `run`, `stop` and the target operations are wrapped
in `require_bpf_loaded` (`src/src/utils/decorators.py`): when `self.bpf is
None` the wrapper logs and returns `False` without running the body.
External effects that can fail (BPF compilation, perf-buffer setup, map
updates, `bpf.cleanup()`) are oracles: a `Bool` argument says whether the
call succeeds. -/

structure MonitorState where
  enabled : Bool
  /-- `self.bpf is not None`. -/
  loaded : Bool
  running : Bool
  stop_event_set : Bool
  target_pids : List Nat
  target_uids : List Nat
deriving DecidableEq

/-- The state after `BaseMonitor.__init__`. -/
def monitor_init (enabled : Bool) : MonitorState :=
  { enabled := enabled, loaded := false, running := false,
    stop_event_set := false, target_pids := [], target_uids := [] }

/-- `BaseMonitor.load_ebpf_program`: refuse when disabled; on a successful
compile assign `self.bpf`; on an exception the assignment does not happen
and the old `self.bpf` is kept. -/
def load_ebpf_program (ok : Bool) (s : MonitorState) : MonitorState × Bool :=
  if !s.enabled then (s, false)
  else if ok then ({ s with loaded := true }, true)
  else (s, false)

/-- `BaseMonitor.run` under `require_bpf_loaded`: fail when not loaded;
return `True` when already running; otherwise open the perf buffer (the
first fallible call — on an exception the state is unchanged and `False` is
returned), clear the stop event, start the loop thread and set `running`. -/
def monitor_run (ok : Bool) (s : MonitorState) : MonitorState × Bool :=
  if !s.loaded then (s, false)
  else if s.running then (s, true)
  else if ok then ({ s with running := true, stop_event_set := false }, true)
  else (s, false)

/-- `BaseMonitor.stop` under `require_bpf_loaded`: no-op when not loaded or
not running; otherwise set the stop event, join the loop thread (bounded,
never raising) and clear `running`.  No statement in the body can raise. -/
def monitor_stop (s : MonitorState) : MonitorState :=
  if !s.loaded then s
  else if !s.running then s
  else { s with stop_event_set := true, running := false }

/-- `BaseMonitor.cleanup`: when `self.bpf` is set, clear the kernel maps and
call `bpf.cleanup()` inside `try/except` (a failure is logged and
swallowed, hence the oracle does not influence the result); then clear the
local target maps.  `self.bpf` is not reset, so `loaded` is unchanged. -/
def monitor_cleanup (bpf_cleanup_raises : Bool) (s : MonitorState) : MonitorState :=
  let _ := bpf_cleanup_raises
  { s with target_pids := [], target_uids := [] }

/-- `BaseMonitor.add_target_process` under `require_bpf_loaded`: insert into
the kernel map (fallible) and then the local map; on an exception nothing
is recorded and `False` is returned. -/
def monitor_add_target_process (ok : Bool) (pid : Nat) (s : MonitorState) :
    MonitorState × Bool :=
  if !s.loaded then (s, false)
  else if ok then
    ({ s with target_pids :=
        if s.target_pids.contains pid then s.target_pids else s.target_pids ++ [pid] },
     true)
  else (s, false)

/-- `BaseMonitor.remove_target_process` under `require_bpf_loaded`. -/
def monitor_remove_target_process (pid : Nat) (s : MonitorState) : MonitorState :=
  if !s.loaded then s
  else { s with target_pids := s.target_pids.filter (fun p => p ≠ pid) }

/-- `BaseMonitor.add_target_user` under `require_bpf_loaded`. -/
def monitor_add_target_user (ok : Bool) (uid : Nat) (s : MonitorState) :
    MonitorState × Bool :=
  if !s.loaded then (s, false)
  else if ok then
    ({ s with target_uids :=
        if s.target_uids.contains uid then s.target_uids else s.target_uids ++ [uid] },
     true)
  else (s, false)

/-- `BaseMonitor.remove_target_user` under `require_bpf_loaded`. -/
def monitor_remove_target_user (uid : Nat) (s : MonitorState) : MonitorState :=
  if !s.loaded then s
  else { s with target_uids := s.target_uids.filter (fun u => u ≠ uid) }

/-- One call of the public monitor API. -/
inductive MonitorOp where
  | load (ok : Bool)
  | run (ok : Bool)
  | stop
  | cleanup (bpf_cleanup_raises : Bool)
  | add_process (ok : Bool) (pid : Nat)
  | remove_process (pid : Nat)
  | add_user (ok : Bool) (uid : Nat)
  | remove_user (uid : Nat)
deriving DecidableEq

/-- The state transition of one API call. -/
def monitor_step (op : MonitorOp) (s : MonitorState) : MonitorState :=
  match op with
  | .load ok => (load_ebpf_program ok s).1
  | .run ok => (monitor_run ok s).1
  | .stop => monitor_stop s
  | .cleanup f => monitor_cleanup f s
  | .add_process ok pid => (monitor_add_target_process ok pid s).1
  | .remove_process pid => monitor_remove_target_process pid s
  | .add_user ok uid => (monitor_add_target_user ok uid s).1
  | .remove_user uid => monitor_remove_target_user uid s

/-- Run a sequence of API calls from a state. -/
def monitor_trace (ops : List MonitorOp) (s : MonitorState) : MonitorState :=
  ops.foldl (fun s op => monitor_step op s) s

/-! ### Manager shutdown (`src/src/ebpf_monitor.py`, `eBPFMonitor.stop`)

`stop()` returns immediately when the manager is not running; otherwise it
calls `self.output_controller.stop()` first and `self._stop_monitors()`
second.  `_stop_monitors` walks the monitor dictionary in order, and for
each monitor whose status is `running` calls `monitor.stop()` and then
`output_controller.unregister_monitor`; an exception from `monitor.stop()`
is caught and skips the unregister call. -/

/-- One externally visible shutdown call. -/
inductive StopAction where
  | controller_stop
  | mon_stop (monitor_type : String)
  | unregister (monitor_type : String)
deriving DecidableEq

/-- One entry of the manager's monitor table at shutdown time. -/
structure ManagedMonitor where
  monitor_type : String
  running : Bool
  stop_raises : Bool
deriving DecidableEq

/-- The manager state consulted by `eBPFMonitor.stop`. -/
structure ManagerState where
  running : Bool
  monitors : List ManagedMonitor
deriving DecidableEq

/-- The calls issued by `eBPFMonitor._stop_monitors`. -/
def stop_monitors_trace (ms : List ManagedMonitor) : List StopAction :=
  ms.flatMap fun m =>
    if m.running then
      if m.stop_raises then [StopAction.mon_stop m.monitor_type]
      else [StopAction.mon_stop m.monitor_type, StopAction.unregister m.monitor_type]
    else []

/-- The calls issued by `eBPFMonitor.stop`, in program order. -/
def manager_stop_trace (st : ManagerState) : List StopAction :=
  if !st.running then []
  else StopAction.controller_stop :: stop_monitors_trace st.monitors

/-- The ordering property claimed by the spec: every `monitor.stop()` call
precedes every `output_controller.stop()` call in the shutdown trace. -/
def monitors_stop_before_controller (tr : List StopAction) : Prop :=
  ∀ i j, (hi : i < tr.length) → (hj : j < tr.length) →
    (∃ t, tr.get ⟨i, hi⟩ = StopAction.mon_stop t) →
    tr.get ⟨j, hj⟩ = StopAction.controller_stop → i < j

/-! ### Manager target management (`src/src/ebpf_monitor.py`,
`eBPFMonitor._add_target_process` / `_add_target_user`)

The manager walks `self.monitors`; for each monitor whose status is
`loaded` it calls the monitor's add method (the kernel-map insert is the
fallible step, given here by the `add_..._ok` oracle).  A failed add sets
`success = False` but the walk continues.  On overall success the pid/uid
is recorded in the manager's map and the stats counter is refreshed; on
failure every monitor whose add succeeded is rolled back with the remove
method. -/

/-- One monitor as seen by the manager's target loop: its status flag
`loaded` (from `monitor_status`), the oracles for the two kernel-map
inserts, and the monitor's local target maps. -/
structure TargetMonitor where
  monitor_type : String
  loaded : Bool
  add_process_ok : Bool
  add_user_ok : Bool
  target_pids : List Nat
  target_uids : List Nat
deriving DecidableEq

/-- The manager state touched by target management. -/
structure TargetManagerState where
  monitors : List TargetMonitor
  target_processes : List (Nat × String)
  target_users : List (Nat × String)
  processes_monitored : Nat
  users_monitored : Nat
deriving DecidableEq

/-- Python `dict[k] = v` on an association list. -/
def assoc_set (d : List (Nat × String)) (k : Nat) (v : String) : List (Nat × String) :=
  if d.any (fun p => p.1 = k) then
    d.map (fun p => if p.1 = k then (k, v) else p)
  else d ++ [(k, v)]

/-- The effect of `monitor.add_target_process(pid, comm)` on one monitor:
`(new monitor, return value)`; this is `monitor_add_target_process`
restricted to the manager's view (the status flag stands for `loaded`). -/
def tm_add_process (pid : Nat) (m : TargetMonitor) : TargetMonitor × Bool :=
  if m.add_process_ok then
    ({ m with target_pids :=
        if m.target_pids.contains pid then m.target_pids else m.target_pids ++ [pid] },
     true)
  else (m, false)

/-- `monitor.remove_target_process(pid)` (`dict.pop`): drop the key. -/
def tm_remove_process (pid : Nat) (m : TargetMonitor) : TargetMonitor :=
  { m with target_pids := m.target_pids.filter (fun p => p ≠ pid) }

/-- `monitor.add_target_user(uid, name)` on one monitor. -/
def tm_add_user (uid : Nat) (m : TargetMonitor) : TargetMonitor × Bool :=
  if m.add_user_ok then
    ({ m with target_uids :=
        if m.target_uids.contains uid then m.target_uids else m.target_uids ++ [uid] },
     true)
  else (m, false)

/-- `monitor.remove_target_user(uid)`. -/
def tm_remove_user (uid : Nat) (m : TargetMonitor) : TargetMonitor :=
  { m with target_uids := m.target_uids.filter (fun u => u ≠ uid) }

/-- `eBPFMonitor._add_target_process`. -/
def add_target_process (st : TargetManagerState) (pid : Nat) (comm : String) :
    TargetManagerState × Bool :=
  -- the loop: loaded monitors attempt the add, others are skipped
  let pass := st.monitors.map fun m =>
    if m.loaded then tm_add_process pid m else (m, true)
  let monitors1 := pass.map (·.1)
  let success := pass.all (·.2)
  if success then
    ({ st with monitors := monitors1,
               target_processes := assoc_set st.target_processes pid comm,
               processes_monitored := (assoc_set st.target_processes pid comm).length },
     true)
  else
    -- roll back the monitors recorded in `added_monitors`
    ({ st with monitors := monitors1.map fun m =>
        if m.loaded && m.add_process_ok then tm_remove_process pid m else m },
     false)

/-- `eBPFMonitor._add_target_user`. -/
def add_target_user (st : TargetManagerState) (uid : Nat) (name : String) :
    TargetManagerState × Bool :=
  let pass := st.monitors.map fun m =>
    if m.loaded then tm_add_user uid m else (m, true)
  let monitors1 := pass.map (·.1)
  let success := pass.all (·.2)
  if success then
    ({ st with monitors := monitors1,
               target_users := assoc_set st.target_users uid name,
               users_monitored := (assoc_set st.target_users uid name).length },
     true)
  else
    ({ st with monitors := monitors1.map fun m =>
        if m.loaded && m.add_user_ok then tm_remove_user uid m else m },
     false)

/-! ### Configuration validation (`src/src/utils/configs.py`,
`MonitorsConfig`)

YAML option values are modelled by `ConfigVal`.  Python type tests follow
Python semantics: `bool` is a subclass of `int`, so `isinstance(x, int)`
and `isinstance(x, (int, float))` accept booleans.  Floats are carried as a
numerator/denominator pair; validation only ever compares them with zero.

`MonitorsConfig.__init__` merges each registered monitor's
`get_default_config()` with the user's section via `dict(default, **user)`
and remembers user keys that match no registered monitor.
`MonitorsConfig.validate` then (1) rejects an empty document, (2) runs
every registered monitor's `validate_config` on its merged section — the
base asserts (`enabled` present and boolean) plus the monitor's
`validate_monitor_config` — and (3) raises for every recorded unknown
monitor key.  The registry contains the nine monitors auto-discovered from
`src/src/monitors` (everything except `base.py`). -/

inductive ConfigVal where
  | vBool (b : Bool)
  | vInt (n : Int)
  | vFloat (num : Int) (den : Nat)
  | vStr (s : String)
  | vStrList (l : List String)
  | vIntList (l : List Int)
  | vDict (d : List (String × ConfigVal))

abbrev ConfigDict := List (String × ConfigVal)

/-- Python `d.get(k)`: `None` when the key is absent. -/
def cfg_get (d : ConfigDict) (k : String) : Option ConfigVal :=
  (d.find? (fun p => p.1 == k)).map (·.2)

/-- Python `dict(default, **user)`: default keys in order, user values
winning, then user-only keys. -/
def dict_merge (dflt user : ConfigDict) : ConfigDict :=
  dflt.map (fun p => match cfg_get user p.1 with
    | some v => (p.1, v)
    | none => p) ++
  user.filter (fun p => (cfg_get dflt p.1).isNone)

/-- `isinstance(x, bool)`. -/
def py_is_bool : Option ConfigVal → Bool
  | some (.vBool _) => true
  | _ => false

/-- `isinstance(x, int)` (true for booleans too). -/
def py_is_int : Option ConfigVal → Bool
  | some (.vBool _) => true
  | some (.vInt _) => true
  | _ => false

/-- `isinstance(x, (int, float))`. -/
def py_is_num : Option ConfigVal → Bool
  | some (.vBool _) => true
  | some (.vInt _) => true
  | some (.vFloat _ _) => true
  | _ => false

/-- `isinstance(x, list)`. -/
def py_is_list : Option ConfigVal → Bool
  | some (.vStrList _) => true
  | some (.vIntList _) => true
  | _ => false

/-- `isinstance(x, dict)`. -/
def py_is_dict : Option ConfigVal → Bool
  | some (.vDict _) => true
  | _ => false

/-- `x is not None` for `d.get(k)`. -/
def cfg_has (d : ConfigDict) (k : String) : Bool := (cfg_get d k).isSome

/-- Numeric value as a signed comparison key (`True == 1`, `False == 0`;
a float compares by the sign of its numerator — validation only compares
against zero). -/
def num_val : Option ConfigVal → Int
  | some (.vBool b) => if b then 1 else 0
  | some (.vInt n) => n
  | some (.vFloat num _) => num
  | _ => 0

/-- `len(x)` for list values. -/
def list_len : Option ConfigVal → Nat
  | some (.vStrList l) => l.length
  | some (.vIntList l) => l.length
  | _ => 0

/-- `BaseMonitor.validate_config` without the trailing
`validate_monitor_config` hook: the config is a non-empty dict whose
`enabled` entry is present and boolean. -/
def base_validate (d : ConfigDict) : Bool :=
  !d.isEmpty && py_is_bool (cfg_get d "enabled")

/-- `BioMonitor.validate_monitor_config`. -/
def bio_validate (d : ConfigDict) : Bool :=
  cfg_has d "min_latency_us" && py_is_num (cfg_get d "min_latency_us") &&
  0 ≤ num_val (cfg_get d "min_latency_us")

/-- `ContextSwitchMonitor.validate_monitor_config`. -/
def context_switch_validate (d : ConfigDict) : Bool :=
  cfg_has d "min_switches" && py_is_int (cfg_get d "min_switches") &&
  0 ≤ num_val (cfg_get d "min_switches")

/-- `ExecMonitor` adds no monitor-specific validation (inherits the base
`validate_monitor_config`, which is `pass`). -/
def exec_validate (_ : ConfigDict) : Bool := true

/-- `FuncMonitor.validate_monitor_config`. -/
def func_validate (d : ConfigDict) : Bool :=
  cfg_has d "patterns" && py_is_list (cfg_get d "patterns") &&
  0 < list_len (cfg_get d "patterns") &&
  cfg_has d "probe_limit" && py_is_int (cfg_get d "probe_limit") &&
  1 ≤ num_val (cfg_get d "probe_limit") &&
  num_val (cfg_get d "probe_limit") ≤ 100

/-- `InterruptMonitor.validate_monitor_config`. -/
def interrupt_validate (d : ConfigDict) : Bool :=
  ["monitor_hardware", "monitor_software", "monitor_timer", "monitor_network",
   "monitor_block", "monitor_migration"].all fun k =>
    cfg_has d k && py_is_bool (cfg_get d k)

/-- `IOMonitor.validate_monitor_config`. -/
def io_validate (d : ConfigDict) : Bool :=
  cfg_has d "slow_io_threshold_us" && py_is_int (cfg_get d "slow_io_threshold_us") &&
  0 ≤ num_val (cfg_get d "slow_io_threshold_us") &&
  num_val (cfg_get d "slow_io_threshold_us") ≤ 20000 &&
  cfg_has d "large_io_threshold_kb" && py_is_int (cfg_get d "large_io_threshold_kb") &&
  0 ≤ num_val (cfg_get d "large_io_threshold_kb") &&
  num_val (cfg_get d "large_io_threshold_kb") ≤ 1024

/-- `OpenMonitor.validate_monitor_config`. -/
def open_validate (d : ConfigDict) : Bool :=
  cfg_has d "min_count" && py_is_int (cfg_get d "min_count") &&
  0 ≤ num_val (cfg_get d "min_count") &&
  cfg_has d "show_errors_only" && py_is_bool (cfg_get d "show_errors_only")

/-- `PageFaultMonitor.validate_monitor_config`. -/
def page_fault_validate (d : ConfigDict) : Bool :=
  ["monitor_major_faults", "monitor_minor_faults", "monitor_write_faults",
   "monitor_user_faults", "monitor_kernel_faults"].all fun k =>
    cfg_has d k && py_is_bool (cfg_get d k)

/-- `SyscallMonitor.validate_monitor_config`. -/
def syscall_validate (d : ConfigDict) : Bool :=
  cfg_has d "sampling_strategy" &&
  (match cfg_get d "sampling_strategy" with
   | some (.vStr s) => ["intelligent", "uniform", "disabled"].contains s
   | _ => false) &&
  cfg_has d "high_priority_syscalls" && py_is_list (cfg_get d "high_priority_syscalls") &&
  cfg_has d "monitor_categories" && py_is_dict (cfg_get d "monitor_categories") &&
  (match cfg_get d "monitor_categories" with
   | some (.vDict mc) =>
       ["file_io", "network", "memory", "process", "signal", "time"].all fun k =>
         cfg_has mc k && py_is_bool (cfg_get mc k)
   | _ => false) &&
  cfg_has d "performance_thresholds" && py_is_dict (cfg_get d "performance_thresholds") &&
  (match cfg_get d "performance_thresholds" with
   | some (.vDict pt) =>
       ["file_io_ms", "network_ms", "memory_ms", "process_ms", "default_us"].all fun k =>
         cfg_has pt k && py_is_num (cfg_get pt k) && 0 ≤ num_val (cfg_get pt k)
   | _ => false) &&
  cfg_has d "max_events_per_second" && py_is_int (cfg_get d "max_events_per_second") &&
  0 < num_val (cfg_get d "max_events_per_second") &&
  cfg_has d "show_errors_only" && py_is_bool (cfg_get d "show_errors_only")

/-- `BaseMonitor.get_default_config` (inherited by exec, bio, open and
context_switch — their `get_default_monitor_config` helpers are never
consulted by the merge). -/
def base_default_config : ConfigDict := [("enabled", .vBool true)]

/-- `FuncMonitor.get_default_config`. -/
def func_default_config : ConfigDict :=
  [("enabled", .vBool true),
   ("patterns", .vStrList ["vfs_*"]),
   ("probe_limit", .vInt 10)]

/-- `InterruptMonitor.get_default_config`. -/
def interrupt_default_config_dict : ConfigDict :=
  [("enabled", .vBool true),
   ("monitor_hardware", .vBool true),
   ("monitor_software", .vBool true),
   ("monitor_timer", .vBool true),
   ("monitor_network", .vBool true),
   ("monitor_block", .vBool true),
   ("monitor_migration", .vBool false)]

/-- `IOMonitor.get_default_config`. -/
def io_default_config : ConfigDict :=
  [("enabled", .vBool true),
   ("slow_io_threshold_us", .vInt 10000),
   ("large_io_threshold_kb", .vInt 64)]

/-- `PageFaultMonitor.get_default_config`. -/
def page_fault_default_config_dict : ConfigDict :=
  [("enabled", .vBool true),
   ("monitor_major_faults", .vBool true),
   ("monitor_minor_faults", .vBool true),
   ("monitor_write_faults", .vBool true),
   ("monitor_user_faults", .vBool true),
   ("monitor_kernel_faults", .vBool false)]

/-- `SyscallMonitor.get_default_config`. -/
def syscall_default_config : ConfigDict :=
  [("enabled", .vBool true),
   ("sampling_strategy", .vStr "intelligent"),
   ("high_priority_syscalls", .vIntList [0, 1, 2, 3, 9, 57, 59]),
   ("monitor_categories", .vDict
      [("file_io", .vBool true), ("network", .vBool true),
       ("memory", .vBool true), ("process", .vBool true),
       ("signal", .vBool false), ("time", .vBool false)]),
   ("performance_thresholds", .vDict
      [("file_io_ms", .vFloat 1 1), ("network_ms", .vFloat 5 1),
       ("memory_ms", .vFloat 1 2), ("process_ms", .vFloat 10 1),
       ("default_us", .vInt 100)]),
   ("max_events_per_second", .vInt 1000),
   ("show_errors_only", .vBool false)]

/-- The auto-discovered registry, keyed by the `@register_monitor` names:
for each monitor its `get_default_config()` and its full `validate_config`
check (base asserts plus `validate_monitor_config`). -/
def monitor_registry : List (String × ConfigDict × (ConfigDict → Bool)) :=
  [("bio", base_default_config, bio_validate),
   ("context_switch", base_default_config, context_switch_validate),
   ("exec", base_default_config, exec_validate),
   ("func", func_default_config, func_validate),
   ("interrupt", interrupt_default_config_dict, interrupt_validate),
   ("io", io_default_config, io_validate),
   ("open", base_default_config, open_validate),
   ("page_fault", page_fault_default_config_dict, page_fault_validate),
   ("syscall", syscall_default_config, syscall_validate)]

/-- The registered monitor names. -/
def registered_monitor_names : List String := monitor_registry.map (·.1)

/-- The user's `monitors` section of the YAML document. -/
abbrev MonitorsUserConfig := List (String × ConfigDict)

/-- The merged section for one registered monitor. -/
def merged_monitor_config (user : MonitorsUserConfig) (name : String)
    (dflt : ConfigDict) : ConfigDict :=
  dict_merge dflt (((user.find? (fun p => p.1 == name)).map (·.2)).getD [])

/-- `MonitorsConfig.validate`: accept exactly when the document is
non-empty, every registered monitor's merged section passes its
`validate_config`, and no user key is outside the registry (step 3 raises
`ValueError` for each unknown key). -/
def monitors_config_validate (user : MonitorsUserConfig) : Bool :=
  !user.isEmpty &&
  (monitor_registry.all fun r =>
    let merged := merged_monitor_config user r.1 r.2.1
    base_validate merged && r.2.2 merged) &&
  (user.all fun p => registered_monitor_names.contains p.1)

/-! ## Theorems -/

/-- Claim C3, counterexample: the interrupt and page-fault filters are not
constantly true.  With the monitors' default configurations,
`InterruptMonitor._should_handle_event` rejects a pure process-migration
event (`irq_type = 0x4000`, since `monitor_migration` defaults to false)
and `PageFaultMonitor._should_handle_event` rejects a kernel-space major
fault (`fault_type = 0x2`, USER bit clear, since `monitor_kernel_faults`
defaults to false). -/
theorem C3_counterexample :
    interrupt_should_handle interrupt_default_config 0x4000 = false ∧
    page_fault_should_handle page_fault_default_config 0x2 = false := by
  decide

/-- Claim C3, amended: both monitors do apply a per-record filter.  Under
the default configuration an interrupt event is handled exactly when its
`irq_type` has one of the HARDWARE/SOFTWARE/TIMER/NETWORK/BLOCK bits
(migration events are dropped), and a page-fault event is handled exactly
when its `fault_type` has the USER bit (kernel faults are dropped). -/
theorem C3_theorem (irq_type fault_type : Nat) :
    interrupt_should_handle interrupt_default_config irq_type =
      (!(irq_type &&& 0x1 == 0) || !(irq_type &&& 0x2 == 0) ||
       !(irq_type &&& 0x4 == 0) || !(irq_type &&& 0x8 == 0) ||
       !(irq_type &&& 0x10 == 0)) ∧
    page_fault_should_handle page_fault_default_config fault_type =
      !(fault_type &&& 0x8 == 0) := by
  constructor
  · cases h1 : irq_type &&& 0x1 == 0 <;> cases h2 : irq_type &&& 0x2 == 0 <;>
      cases h3 : irq_type &&& 0x4 == 0 <;> cases h4 : irq_type &&& 0x8 == 0 <;>
      cases h5 : irq_type &&& 0x10 == 0 <;>
      (simp_all [interrupt_should_handle, interrupt_default_config,
        Nat.and_one_is_mod]; try omega)
  · cases h : fault_type &&& 0x8 == 0 <;>
      simp [page_fault_should_handle, page_fault_default_config, h]

/-- Claim C4, counterexample: `ExecMonitor.get_csv_header` has no
`filename` column (the executed path travels in `argv`), and
`SyscallMonitor.get_csv_header` has none of the aggregate columns `count`,
`error_count`, `error_rate` (it is a per-event schema with `ret_val` and
`error_name`). -/
theorem C4_counterexample :
    exec_csv_header.contains "filename" = false ∧
    syscall_csv_header.contains "count" = false ∧
    syscall_csv_header.contains "error_count" = false ∧
    syscall_csv_header.contains "error_rate" = false := by
  decide

/-- Claim C4, amended: every implemented `get_csv_header` starts with
`timestamp` and `time_str`; exec additionally carries `uid`, `pid`, `comm`
(with `argv` in place of the spec's `filename`), and syscall carries
`comm`, `syscall_nr`, `syscall_name`, `category` (with per-event
`ret_val`/`error_name`/`is_error` fields in place of the spec's
`count`/`error_count`/`error_rate`). -/
theorem C4_theorem :
    (exec_csv_header.take 2 = ["timestamp", "time_str"] ∧
      "uid" ∈ exec_csv_header ∧ "pid" ∈ exec_csv_header ∧
      "comm" ∈ exec_csv_header ∧ "argv" ∈ exec_csv_header) ∧
    (syscall_csv_header.take 2 = ["timestamp", "time_str"] ∧
      "comm" ∈ syscall_csv_header ∧ "syscall_nr" ∈ syscall_csv_header ∧
      "syscall_name" ∈ syscall_csv_header ∧ "category" ∈ syscall_csv_header ∧
      "ret_val" ∈ syscall_csv_header ∧ "error_name" ∈ syscall_csv_header ∧
      "is_error" ∈ syscall_csv_header) ∧
    interrupt_csv_header.take 2 = ["timestamp", "time_str"] ∧
    page_fault_csv_header.take 2 = ["timestamp", "time_str"] ∧
    func_csv_header.take 2 = ["timestamp", "time_str"] ∧
    io_csv_header.take 2 = ["timestamp", "time_str"] := by
  decide

/-- Claim C5, counterexample: the consumer ignores the configured sizes.
With `batch_size = 50` and `large_batch_threshold = 5` in the
`OutputConfig`, the controller still uses the literal 100, so one
`_process_buffer` pass pops 60 records (more than the configured 50), and a
batch of 10 records (at least the configured threshold 5) does not force a
flush because the flush test is the literal `len(events) >= 20`. -/
theorem C5_counterexample :
    let cfg : OutputConfig := { batch_size := 50, large_batch_threshold := 5 }
    (setup_output_controller cfg).batch_size = 100 ∧
    (process_buffer (setup_output_controller cfg).batch_size (List.range 60)).1.length = 60 ∧
    cfg.batch_size < 60 ∧
    write_csv_batch_flushes (List.range 10) = false ∧
    cfg.large_batch_threshold ≤ 10 := by
  decide

/-- Claim C5, amended: per iteration and registered type the consumer pops
at most 100 records (the literal assigned in `_setup_output_controller`,
independent of the configured `batch_size`), writes them in one pass
without losing the remainder, and forces a flush exactly when the batch
has at least 20 records (the literal in `_write_csv_batch`, independent of
the configured `large_batch_threshold`). -/
theorem C5_theorem (cfg : OutputConfig) (buffer : List Nat) :
    (setup_output_controller cfg).batch_size = 100 ∧
    (process_buffer (setup_output_controller cfg).batch_size buffer).1.length ≤ 100 ∧
    (process_buffer (setup_output_controller cfg).batch_size buffer).1 ++
      (process_buffer (setup_output_controller cfg).batch_size buffer).2 = buffer ∧
    (write_csv_batch_flushes
        (process_buffer (setup_output_controller cfg).batch_size buffer).1 = true ↔
      20 ≤ (process_buffer (setup_output_controller cfg).batch_size buffer).1.length) := by
  refine ⟨rfl, ?_, ?_, ?_⟩
  · simp [process_buffer, setup_output_controller]
  · simp [process_buffer, List.take_append_drop]
  · simp [write_csv_batch_flushes]

/-- Claim C6, counterexample: the textual field emitted with the record is
`InterruptEvent.irq_type_str`, the pipe-joined list of all set flags — not
the priority-ordered decoding, which appears only in
`format_for_console`.  At `irq_type = 0x5` (HARDWARE and TIMER bits) the
emitted string is `"HARDWARE|TIMER"` while the priority decoding is
`"HARD"`. -/
theorem C6_counterexample :
    irq_type_str 0x5 = "HARDWARE|TIMER" ∧
    irq_console_type_str 0x5 = "HARD" ∧
    irq_type_str 0x5 ≠ irq_console_type_str 0x5 := by
  decide

/-- Every interrupt flag list is a sublist of the seven flag names in
source order. -/
theorem irq_flags_sublist (t : Nat) :
    (irq_flags t).Sublist
      ["HARDWARE", "SOFTWARE", "TIMER", "NETWORK", "BLOCK", "MIGRATE", "AFFINITY"] := by
  unfold irq_flags
  split <;> split <;> split <;> split <;> split <;> split <;> split <;> decide

/-- Every page-fault flag list is a sublist of the six flag names in
source order. -/
theorem fault_flags_sublist (t : Nat) :
    (fault_flags t).Sublist
      ["MINOR", "MAJOR", "WRITE", "USER", "SHARED", "SWAP"] := by
  unfold fault_flags
  split <;> split <;> split <;> split <;> split <;> split <;> decide

set_option maxRecDepth 8192 in
/-- Parsing inverts joining for every sublist of the interrupt flag
names. -/
theorem irq_parse_sublists :
    ∀ fs ∈ (["HARDWARE", "SOFTWARE", "TIMER", "NETWORK", "BLOCK", "MIGRATE",
             "AFFINITY"] : List String).sublists,
      irq_flags_of_str (if fs = [] then "UNKNOWN" else String.intercalate "|" fs) = fs := by
  decide

set_option maxRecDepth 8192 in
/-- Parsing inverts joining for every sublist of the page-fault flag
names. -/
theorem fault_parse_sublists :
    ∀ fs ∈ (["MINOR", "MAJOR", "WRITE", "USER", "SHARED", "SWAP"] :
              List String).sublists,
      fault_flags_of_str (if fs = [] then "UNKNOWN" else String.intercalate "|" fs) = fs := by
  decide

/-- Claim C6, amended: the emitted `*_type_str` is the pipe-joined list of
all set flag names in the source's fixed order (interrupt: HARDWARE,
SOFTWARE, TIMER, NETWORK, BLOCK, MIGRATE, AFFINITY; page fault: MINOR,
MAJOR, WRITE, USER, SHARED, SWAP), with `"UNKNOWN"` for an empty mask; the
priority-ordered single tag is used only for console display.
Round-tripping the emitted string back to a flag classification recovers
exactly the event's flag classification. -/
theorem C6_theorem :
    (∀ t, irq_flags_of_str (irq_type_str t) = irq_flags t) ∧
    (∀ t, fault_flags_of_str (fault_type_str t) = fault_flags t) := by
  constructor
  · intro t
    have h := irq_parse_sublists (irq_flags t)
      (List.mem_sublists.mpr (irq_flags_sublist t))
    simpa [irq_type_str] using h
  · intro t
    have h := fault_parse_sublists (fault_flags t)
      (List.mem_sublists.mpr (fault_flags_sublist t))
    simpa [fault_type_str] using h

/-- Claim C1, counterexample: with the manager running one running monitor,
`eBPFMonitor.stop` issues `output_controller.stop()` strictly before
`monitor.stop()` — the trace is `[controller_stop, mon_stop "exec",
unregister "exec"]`, so the claimed ordering fails at positions 1 and 0. -/
theorem C1_counterexample :
    ¬ monitors_stop_before_controller
        (manager_stop_trace
          { running := true,
            monitors := [{ monitor_type := "exec", running := true,
                           stop_raises := false }] }) := by
  intro h
  have := h 1 0 (by decide) (by decide) ⟨"exec", rfl⟩ rfl
  omega

/-- Helper: `_stop_monitors` never issues a controller stop. -/
theorem stop_monitors_trace_no_controller_stop (ms : List ManagedMonitor) :
    StopAction.controller_stop ∉ stop_monitors_trace ms := by
  intro ha
  rcases List.mem_flatMap.mp ha with ⟨m, _, hm⟩
  by_cases hr : m.running <;> by_cases hsr : m.stop_raises <;>
    simp [hr, hsr] at hm

/-- Helper: `_stop_monitors` stops every monitor whose status is running. -/
theorem stop_monitors_trace_covers (ms : List ManagedMonitor) :
    ∀ m ∈ ms, m.running = true →
      StopAction.mon_stop m.monitor_type ∈ stop_monitors_trace ms := by
  intro m hm hr
  refine List.mem_flatMap.mpr ⟨m, hm, ?_⟩
  by_cases hsr : m.stop_raises <;> simp [hr, hsr]

/-- Claim C1, amended: the shutdown order of `eBPFMonitor.stop` is the
reverse of the claim — the OutputController is stopped (and runs its final
drain) first, and only then is each running monitor stopped and
unregistered: in the shutdown trace of a running manager the controller
stop is the first call, no further controller stop occurs, and every
running monitor's stop call lies strictly after it. -/
theorem C1_theorem (st : ManagerState) (hrun : st.running = true) :
    (manager_stop_trace st).head? = some StopAction.controller_stop ∧
    (∀ a ∈ (manager_stop_trace st).tail, a ≠ StopAction.controller_stop) ∧
    (∀ m ∈ st.monitors, m.running = true →
      StopAction.mon_stop m.monitor_type ∈ (manager_stop_trace st).tail) := by
  have htr : manager_stop_trace st =
      StopAction.controller_stop :: stop_monitors_trace st.monitors := by
    simp [manager_stop_trace, hrun]
  refine ⟨by rw [htr]; rfl, ?_, ?_⟩
  · rw [htr]
    intro a ha heq
    exact stop_monitors_trace_no_controller_stop st.monitors (heq ▸ ha)
  · intro m hm hr
    rw [htr]
    exact stop_monitors_trace_covers st.monitors m hm hr

/-- Witness for C1's amended theorem at a concrete running manager. -/
theorem C1_theorem_witness :
    (manager_stop_trace
      { running := true,
        monitors := [{ monitor_type := "exec", running := true,
                       stop_raises := false }] }).head? =
      some StopAction.controller_stop :=
  (C1_theorem _ rfl).1

/-- Claim C2, counterexample: on a full FIFO (`buffer_size = 2`, two queued
records) the producer path head-drops the oldest record, but no overflow
counter moves: the only drop counter in the code, the monitor's
`stats["events_dropped"]`, stays 0 (it counts callback exceptions only),
and `events_processed` is incremented even though a record was just
discarded.  The drop is silent. -/
theorem C2_counterexample :
    let st : OCState :=
      { running := true, monitors := ["exec"], buffer_size := 2,
        events_buffer := fun s => if s = "exec" then [1, 2] else [] }
    let r := handle_event_callback (fun _ => true) false st ⟨0, 0⟩ "exec" 3
    (st.events_buffer "exec").length = st.buffer_size ∧
    r.1.events_buffer "exec" = [2, 3] ∧
    r.2.events_dropped = 0 ∧
    r.2.events_processed = 1 := by
  refine ⟨rfl, ?_, rfl, rfl⟩
  rfl

/-- Claim C2, amended: when `handle_event` is called for a registered type
while the controller is running and the type's FIFO already holds
`buffer_size` records, the oldest queued record is silently dropped (the
new buffer is the old one without its head, plus the new record at the
tail), other types' buffers are untouched, and the producer never blocks
(`handle_event` is a total state function); no overflow counter is
incremented — the code keeps no such counter, and the monitor's
`events_dropped` statistic is unaffected by the buffer state. -/
theorem C2_theorem (st : OCState) (t : String) (e : Nat)
    (hrun : st.running = true) (hmon : st.monitors.contains t = true)
    (hfull : (st.events_buffer t).length = st.buffer_size)
    (hpos : 0 < st.buffer_size) :
    (handle_event st t e).events_buffer t = (st.events_buffer t).drop 1 ++ [e] ∧
    (∀ s, s ≠ t → (handle_event st t e).events_buffer s = st.events_buffer s) ∧
    (∀ ms : MonitorStats,
      (handle_event_callback (fun _ => true) false st ms t e).2.events_dropped =
        ms.events_dropped) := by
  have hlen : 1 ≤ (st.events_buffer t).length := by omega
  refine ⟨?_, ?_, ?_⟩
  · simp only [handle_event, hrun, hmon, Bool.not_true, Bool.false_eq_true,
      if_false, if_true]
    simp only [deque_append, if_pos rfl]
    rw [List.length_append, List.length_singleton, hfull]
    have hdrop : st.buffer_size + 1 - st.buffer_size = 1 := by omega
    rw [hdrop, List.drop_append_of_le_length hlen]
  · intro s hs
    simp only [handle_event, hrun, hmon, Bool.not_true, Bool.false_eq_true,
      if_false, if_true]
    simp [hs]
  · intro ms
    simp [handle_event_callback]

/-- Witness for C2's amended theorem on a concrete full buffer. -/
theorem C2_theorem_witness :
    (handle_event
      { running := true, monitors := ["exec"], buffer_size := 2,
        events_buffer := fun s => if s = "exec" then [1, 2] else [] }
      "exec" 3).events_buffer "exec" = [1, 2].drop 1 ++ [3] :=
  (C2_theorem
    { running := true, monitors := ["exec"], buffer_size := 2,
      events_buffer := fun s => if s = "exec" then [1, 2] else [] }
    "exec" 3 rfl (by decide) (by decide) (by decide)).1

/-- Helper: one API call preserves the invariant `running → loaded`. -/
theorem monitor_step_inv (op : MonitorOp) (s : MonitorState)
    (h : s.running = true → s.loaded = true) :
    (monitor_step op s).running = true → (monitor_step op s).loaded = true := by
  cases op <;>
    simp only [monitor_step, load_ebpf_program, monitor_run, monitor_stop,
      monitor_cleanup, monitor_add_target_process, monitor_remove_target_process,
      monitor_add_target_user, monitor_remove_target_user] <;>
    (try split_ifs) <;> simp_all

/-- Helper: the invariant `running → loaded` holds along every trace. -/
theorem monitor_trace_inv (ops : List MonitorOp) (s : MonitorState)
    (h : s.running = true → s.loaded = true) :
    (monitor_trace ops s).running = true → (monitor_trace ops s).loaded = true := by
  induction ops generalizing s with
  | nil => exact h
  | cons op rest ih => exact ih _ (monitor_step_inv op s h)

/-- Claim C8, confirmed: starting from a fresh monitor, after any sequence
of API calls `running = true` implies `loaded = true`; moreover
`run()` under `require_bpf_loaded` returns `False` and leaves the state
unchanged whenever the eBPF program is not loaded, so `running` can only
become true after a successful load. -/
theorem C8_theorem :
    (∀ (ops : List MonitorOp) (enabled : Bool),
      (monitor_trace ops (monitor_init enabled)).running = true →
      (monitor_trace ops (monitor_init enabled)).loaded = true) ∧
    (∀ (s : MonitorState) (ok : Bool), s.loaded = false →
      monitor_run ok s = (s, false)) := by
  constructor
  · intro ops e
    exact monitor_trace_inv ops _ (by simp [monitor_init])
  · intro s ok h
    simp [monitor_run, h]

/-- Witness for C8: a concrete trace that loads then runs ends loaded, and
`run` on a fresh (unloaded) monitor fails leaving the state unchanged. -/
theorem C8_theorem_witness :
    (monitor_trace [MonitorOp.load true, MonitorOp.run true]
      (monitor_init true)).loaded = true ∧
    monitor_run true (monitor_init true) = (monitor_init true, false) :=
  ⟨C8_theorem.1 [MonitorOp.load true, MonitorOp.run true] true (by decide),
   C8_theorem.2 (monitor_init true) true (by decide)⟩

/-- Claim C9, confirmed: `stop()` and `cleanup()` are idempotent.  In the
source, `stop` has no statement that can raise (the second call returns at
the `not self.running` guard), and `cleanup` wraps the only fallible call
(`bpf.cleanup()`) in `try/except`; both are total state functions here,
and a second call is a no-op on the state, for every starting state and
every outcome of the guarded `bpf.cleanup()` call. -/
theorem C9_theorem (s : MonitorState) (f1 f2 : Bool) :
    monitor_stop (monitor_stop s) = monitor_stop s ∧
    monitor_cleanup f2 (monitor_cleanup f1 s) = monitor_cleanup f1 s := by
  constructor
  · unfold monitor_stop
    split_ifs <;> simp_all
  · simp [monitor_cleanup]

/-- Helper: the loop's overall success flag equals "every loaded monitor's
kernel-map insert succeeds". -/
theorem add_process_pass_all (ms : List TargetMonitor) (pid : Nat) :
    ((ms.map fun m => if m.loaded then tm_add_process pid m else (m, true)).all
      (·.2)) = ms.all fun m => !m.loaded || m.add_process_ok := by
  induction ms with
  | nil => rfl
  | cons m rest ih =>
      simp only [List.map_cons, List.all_cons, ih]
      congr 1
      by_cases hl : m.loaded <;> by_cases ho : m.add_process_ok <;>
        simp [tm_add_process, hl, ho]

/-- Helper: the user-loop success flag, same shape. -/
theorem add_user_pass_all (ms : List TargetMonitor) (uid : Nat) :
    ((ms.map fun m => if m.loaded then tm_add_user uid m else (m, true)).all
      (·.2)) = ms.all fun m => !m.loaded || m.add_user_ok := by
  induction ms with
  | nil => rfl
  | cons m rest ih =>
      simp only [List.map_cons, List.all_cons, ih]
      congr 1
      by_cases hl : m.loaded <;> by_cases ho : m.add_user_ok <;>
        simp [tm_add_user, hl, ho]

/-- Helper: when the pid was not previously targeted, the rollback step
restores each monitor exactly. -/
theorem add_process_rollback (pid : Nat) (m : TargetMonitor)
    (h : pid ∉ m.target_pids) :
    (fun m1 => if m1.loaded && m1.add_process_ok then tm_remove_process pid m1
               else m1)
      ((if m.loaded then tm_add_process pid m else (m, true)).1) = m := by
  have hc : m.target_pids.contains pid = false := by
    simpa using h
  have hfilter : (m.target_pids ++ [pid]).filter (fun p => !decide (p = pid)) =
      m.target_pids := by
    rw [List.filter_append]
    have h1 : m.target_pids.filter (fun p => !decide (p = pid)) = m.target_pids :=
      List.filter_eq_self.mpr fun a ha => by
        simp only [Bool.not_eq_true', decide_eq_false_iff_not]
        exact fun heq => h (heq ▸ ha)
    have h2 : [pid].filter (fun p => !decide (p = pid)) = [] := by simp
    rw [h1, h2, List.append_nil]
  obtain ⟨mt, ml, mpo, muo, tps, tus⟩ := m
  cases ml <;> cases mpo <;>
    simp_all [tm_add_process, tm_remove_process]

/-- Helper: same rollback fact for users. -/
theorem add_user_rollback (uid : Nat) (m : TargetMonitor)
    (h : uid ∉ m.target_uids) :
    (fun m1 => if m1.loaded && m1.add_user_ok then tm_remove_user uid m1
               else m1)
      ((if m.loaded then tm_add_user uid m else (m, true)).1) = m := by
  have hc : m.target_uids.contains uid = false := by
    simpa using h
  have hfilter : (m.target_uids ++ [uid]).filter (fun u => !decide (u = uid)) =
      m.target_uids := by
    rw [List.filter_append]
    have h1 : m.target_uids.filter (fun u => !decide (u = uid)) = m.target_uids :=
      List.filter_eq_self.mpr fun a ha => by
        simp only [Bool.not_eq_true', decide_eq_false_iff_not]
        exact fun heq => h (heq ▸ ha)
    have h2 : [uid].filter (fun u => !decide (u = uid)) = [] := by simp
    rw [h1, h2, List.append_nil]
  obtain ⟨mt, ml, mpo, muo, tps, tus⟩ := m
  cases ml <;> cases muo <;>
    simp_all [tm_add_user, tm_remove_user]

/-- Helper: after `dict[k] = v`, the key is present. -/
theorem assoc_set_mem (d : List (Nat × String)) (k : Nat) (v : String) :
    (assoc_set d k v).any (fun p => p.1 = k) = true := by
  unfold assoc_set
  by_cases h : d.any (fun p => p.1 = k)
  · simp only [h, if_true]
    rcases List.any_eq_true.mp h with ⟨p, hp, hpk⟩
    refine List.any_eq_true.mpr ⟨(k, v), List.mem_map.mpr ⟨p, hp, ?_⟩, by simp⟩
    simp only [decide_eq_true_eq] at hpk
    simp [hpk]
  · simp only [h, if_false]
    refine List.any_eq_true.mpr ⟨(k, v), ?_, by simp⟩
    simp

/-- Helper: `_add_target_process` written as a single conditional. -/
theorem add_target_process_eq (st : TargetManagerState) (pid : Nat) (comm : String) :
    add_target_process st pid comm =
      if ((st.monitors.map fun m =>
            if m.loaded then tm_add_process pid m else (m, true)).all (·.2)) then
        ({ st with
            monitors := (st.monitors.map fun m =>
              if m.loaded then tm_add_process pid m else (m, true)).map (·.1),
            target_processes := assoc_set st.target_processes pid comm,
            processes_monitored := (assoc_set st.target_processes pid comm).length },
         true)
      else
        ({ st with
            monitors := ((st.monitors.map fun m =>
              if m.loaded then tm_add_process pid m else (m, true)).map (·.1)).map
                fun m => if m.loaded && m.add_process_ok then tm_remove_process pid m
                         else m },
         false) := rfl

/-- Helper: `_add_target_user` written as a single conditional. -/
theorem add_target_user_eq (st : TargetManagerState) (uid : Nat) (name : String) :
    add_target_user st uid name =
      if ((st.monitors.map fun m =>
            if m.loaded then tm_add_user uid m else (m, true)).all (·.2)) then
        ({ st with
            monitors := (st.monitors.map fun m =>
              if m.loaded then tm_add_user uid m else (m, true)).map (·.1),
            target_users := assoc_set st.target_users uid name,
            users_monitored := (assoc_set st.target_users uid name).length },
         true)
      else
        ({ st with
            monitors := ((st.monitors.map fun m =>
              if m.loaded then tm_add_user uid m else (m, true)).map (·.1)).map
                fun m => if m.loaded && m.add_user_ok then tm_remove_user uid m
                         else m },
         false) := rfl

/-- Claim C10, confirmed: `_add_target_process` / `_add_target_user` are
atomic across monitors.  For a pid (resp. uid) not yet targeted anywhere:
the call succeeds exactly when the add succeeds on every loaded monitor;
on failure the whole manager state — including every monitor's target maps
and the manager's `target_processes` / `target_users` dictionaries — is
exactly what it was before the call (the partial additions are rolled
back); and the pid/uid is recorded in the manager's map precisely when the
call succeeded. -/
theorem C10_theorem (st : TargetManagerState) (pid uid : Nat) (comm name : String)
    (hpm : ∀ m ∈ st.monitors, pid ∉ m.target_pids)
    (hpg : st.target_processes.any (fun p => p.1 = pid) = false)
    (hum : ∀ m ∈ st.monitors, uid ∉ m.target_uids)
    (hug : st.target_users.any (fun p => p.1 = uid) = false) :
    ((add_target_process st pid comm).2 =
       st.monitors.all fun m => !m.loaded || m.add_process_ok) ∧
    ((add_target_process st pid comm).2 = false →
       (add_target_process st pid comm).1 = st) ∧
    ((add_target_process st pid comm).1.target_processes.any
        (fun p => p.1 = pid) = (add_target_process st pid comm).2) ∧
    ((add_target_user st uid name).2 =
       st.monitors.all fun m => !m.loaded || m.add_user_ok) ∧
    ((add_target_user st uid name).2 = false →
       (add_target_user st uid name).1 = st) ∧
    ((add_target_user st uid name).1.target_users.any
        (fun p => p.1 = uid) = (add_target_user st uid name).2) := by
  have hrollP : (((st.monitors.map fun m =>
      if m.loaded then tm_add_process pid m else (m, true)).map (·.1)).map
        fun m => if m.loaded && m.add_process_ok then tm_remove_process pid m
                 else m) = st.monitors := by
    rw [List.map_map, List.map_map]
    refine (List.map_congr_left ?_).trans (List.map_id _)
    intro m hm
    exact add_process_rollback pid m (hpm m hm)
  have hrollU : (((st.monitors.map fun m =>
      if m.loaded then tm_add_user uid m else (m, true)).map (·.1)).map
        fun m => if m.loaded && m.add_user_ok then tm_remove_user uid m
                 else m) = st.monitors := by
    rw [List.map_map, List.map_map]
    refine (List.map_congr_left ?_).trans (List.map_id _)
    intro m hm
    exact add_user_rollback uid m (hum m hm)
  refine ⟨?_, ?_, ?_, ?_, ?_, ?_⟩
  · rw [add_target_process_eq, ← add_process_pass_all st.monitors pid]
    split <;> simp_all
  · rw [add_target_process_eq]
    split
    · simp
    · intro
      simp only [hrollP]
  · rw [add_target_process_eq]
    split
    · simpa using assoc_set_mem st.target_processes pid comm
    · simpa using hpg
  · rw [add_target_user_eq, ← add_user_pass_all st.monitors uid]
    split <;> simp_all
  · rw [add_target_user_eq]
    split
    · simp
    · intro
      simp only [hrollU]
  · rw [add_target_user_eq]
    split
    · simpa using assoc_set_mem st.target_users uid name
    · simpa using hug

/-- A concrete manager with two loaded monitors, the second of which
refuses the kernel-map insert. -/
def c10_manager : TargetManagerState :=
  { monitors :=
      [{ monitor_type := "exec", loaded := true, add_process_ok := true,
         add_user_ok := true, target_pids := [], target_uids := [] },
       { monitor_type := "syscall", loaded := true, add_process_ok := false,
         add_user_ok := true, target_pids := [], target_uids := [] }],
    target_processes := [], target_users := [],
    processes_monitored := 0, users_monitored := 0 }

/-- Witness for C10: on `c10_manager` the add fails and the manager state is
fully restored. -/
theorem C10_theorem_witness :
    (add_target_process c10_manager 7 "bash").2 = false ∧
    (add_target_process c10_manager 7 "bash").1 = c10_manager := by
  have h := C10_theorem c10_manager 7 9 "bash" "root"
    (by decide) (by decide) (by decide) (by decide)
  have hall : (c10_manager.monitors.all fun m => !m.loaded || m.add_process_ok) =
      false := by decide
  have hfail := h.1.trans hall
  exact ⟨hfail, h.2.1 hfail⟩

/-- Claim C7, counterexample: `MonitorsConfig.validate` accepts a document
whose `exec` section carries the unknown option key `bogus` — `dict(default,
**user)` merges unknown option keys silently and no validator inspects
them (`bogus` is not among exec's recognized options, which are exactly the
default-config keys).  The bio/context_switch/open sections carry the
options their validators demand of every document. -/
theorem C7_counterexample :
    monitors_config_validate
      [("bio", [("min_latency_us", .vInt 0)]),
       ("context_switch", [("min_switches", .vInt 10)]),
       ("open", [("min_count", .vInt 1), ("show_errors_only", .vBool false)]),
       ("exec", [("enabled", .vBool true), ("bogus", .vInt 1)])] = true ∧
    base_default_config.all (fun p => p.1 ≠ "bogus") = true := by
  constructor
  · decide
  · decide

/-- Claim C7, amended: a key under `monitors` that does not name a
registered monitor type still makes validation fail (step 3 of
`MonitorsConfig.validate` raises for it), but an unknown option key inside
a monitor's option map is not rejected: the merged section is checked only
for the keys the monitor's validator names — for exec, any option map
whose `enabled` entry is absent or boolean passes the full per-monitor
validation no matter what other keys it contains. -/
theorem C7_theorem :
    (∀ (user : MonitorsUserConfig) (sec : String × ConfigDict),
       sec ∈ user → registered_monitor_names.contains sec.1 = false →
       monitors_config_validate user = false) ∧
    (∀ opts : ConfigDict,
       (cfg_get opts "enabled" = none ∨
        ∃ b, cfg_get opts "enabled" = some (.vBool b)) →
       (base_validate (dict_merge base_default_config opts) &&
        exec_validate (dict_merge base_default_config opts)) = true) := by
  constructor
  · intro user sec hmem hcont
    have hc : (user.all fun p => registered_monitor_names.contains p.1) = false := by
      refine List.all_eq_false.mpr ⟨sec, hmem, ?_⟩
      simpa using hcont
    unfold monitors_config_validate
    rw [hc, Bool.and_false]
  · intro opts h
    rcases h with h | ⟨b, h⟩ <;>
      simp only [cfg_get] at h <;>
      simp [dict_merge, base_default_config, base_validate, exec_validate,
        cfg_get, h, py_is_bool, List.find?]

/-- Witness for C7's amended theorem: a single unregistered key is
rejected, and an exec section consisting solely of an unknown key passes
exec's validation. -/
theorem C7_theorem_witness :
    monitors_config_validate [("nonsense", [("enabled", .vBool true)])] = false ∧
    (base_validate (dict_merge base_default_config [("bogus", .vInt 1)]) &&
     exec_validate (dict_merge base_default_config [("bogus", .vInt 1)])) = true :=
  ⟨C7_theorem.1 [("nonsense", [("enabled", .vBool true)])]
      ("nonsense", [("enabled", .vBool true)]) (List.mem_singleton.mpr rfl)
      (by decide),
   C7_theorem.2 [("bogus", .vInt 1)] (Or.inl rfl)⟩

end EbpfMonitor
